import Mathlib

/-!
Shallow embedding of the authentication / authorization subsystem of the
contact-management backend (src/services/auth.py, src/api/auth.py,
src/repository/users.py, src/db/models.py, src/schemas/contacts.py).

Python exceptions are modelled with `Except`; machine state (the redis cache,
the persistence store) is passed explicitly; the external JWT library
(python-jose) and the bcrypt hasher (passlib) are modelled by executable
functions that reproduce the behaviour the code relies on.
-/

/-- Python `str` values as the password pipeline sees them: either a
plaintext password or a bcrypt digest.  Modelled from the spec (§4.1 Password
Hasher): the digest of passlib's `CryptContext(schemes=["bcrypt"])` is not
repository code; it is idealized as the pair of the salt and an injective
image of the plaintext (collision-freeness is idealized as injectivity;
one-wayness is not observable in a shallow embedding). -/
inductive PwdStr where
  | plain (s : String)
  | bcrypt (salt : Nat) (image : String)
deriving DecidableEq, Repr

/-- The textual content of a `PwdStr` (what bcrypt actually consumes when it
is fed an arbitrary `str`). -/
def pwdRepr : PwdStr → String
  | PwdStr.plain s => s
  | PwdStr.bcrypt salt image => "$2b$" ++ Nat.repr salt ++ "$" ++ image

/-- `Hash.get_password_hash` (src/services/auth.py lines 36-46):
`pwd_context.hash(password)` with a fresh random salt, passed here
explicitly. -/
def get_password_hash (salt : Nat) (password : PwdStr) : PwdStr :=
  PwdStr.bcrypt salt (pwdRepr password)

/-- `Hash.verify_password` (src/services/auth.py lines 23-34):
`pwd_context.verify(plain_password, hashed_password)` recomputes the digest
with the salt stored in `hashed_password` and compares; a mismatch returns
`False` rather than raising.  Verifying against a value that is not a bcrypt
digest is out of the claims' scope and returns `False` here. -/
def verify_password (plain_password hashed_password : PwdStr) : Bool :=
  match hashed_password with
  | PwdStr.bcrypt _ image => pwdRepr plain_password = image
  | PwdStr.plain _ => false

/-- `UserRole` enum from src/db/models.py: `user`, `moderator`, `admin`. -/
inductive UserRole where
  | user
  | moderator
  | admin
deriving DecidableEq, Repr

/-- The persisted `User` record (src/db/models.py) merged with the schema
`User` (src/schemas/contacts.py): id, username, email, hashed password,
optional avatar URL, confirmed flag, role. -/
structure UserRec where
  id : Nat
  username : String
  email : String
  hashed_password : PwdStr
  avatar : Option String
  confirmed : Bool
  role : UserRole
deriving DecidableEq, Repr

/-- Python-level failures that can escape the subsystem: `HTTPException`
(status code + detail) raised deliberately, and uncaught `KeyError` /
`TypeError` / redis `ConnectionError` propagating out of a handler. -/
inductive PyErr where
  | httpException (statusCode : Nat) (detail : String)
  | keyError (key : String)
  | typeError (msg : String)
  | redisError (msg : String)
  | attributeError (msg : String)
deriving DecidableEq, Repr

/-- Configuration (src/conf/config.py is consumed via `settings`): the JWT
secret and the default session-token TTL in seconds. -/
structure Settings where
  jwtSecret : String
  jwtExpirationSeconds : Nat
deriving DecidableEq, Repr

/-- A JWT as the code observes it through python-jose: either malformed, or a
signed claim set.  String claims may be JSON `null` (`Option String`); the
numeric `exp` and `iat` claims are kept as separate fields.  The signature is
modelled by recording the secret the token was signed with. -/
structure Token where
  malformed : Bool
  sig : String
  claims : List (String × Option String)
  exp : Option Nat
  iat : Option Nat
deriving DecidableEq, Repr

/-- Association-list lookup used for claim sets and the cache. -/
def alistLookup {α : Type} (l : List (String × α)) (k : String) : Option α :=
  match l with
  | [] => none
  | (k', v) :: rest => if k' = k then some v else alistLookup rest k

/-- Modelled from the spec (§4.2 Token Codec): `jose.jwt.decode` as called in
src/services/auth.py --- the jose library itself is not part of the
repository.  Decoding fails (raising `JWTError`) when the token is malformed,
the signature does not verify against the shared secret, the expiry has
passed, or a present `sub` claim is not a string (jose validates `sub` is a
string; a JSON-null `sub` therefore also fails decoding). -/
def jwtDecode (t : Token) (secret : String) (now : Nat) :
    Option (List (String × Option String)) :=
  if t.malformed then none
  else if t.sig ≠ secret then none
  else match t.exp with
    | some e =>
        if e ≤ now then none
        else match alistLookup t.claims "sub" with
          | some none => none
          | _ => some t.claims
    | none =>
        match alistLookup t.claims "sub" with
          | some none => none
          | _ => some t.claims

/-- `create_access_token` (src/services/auth.py lines 54-79): copies the data,
computes `exp` as `now + expires_delta` when `expires_delta` is truthy and
`now + settings.JWT_EXPIRATION_SECONDS` otherwise (Python `if expires_delta:`
treats `None` and `0` alike), and signs with the configured secret. -/
def create_access_token (data : List (String × Option String))
    (expires_delta : Option Nat) (now : Nat) (s : Settings) : Token :=
  let expire :=
    match expires_delta with
    | some d => if d = 0 then now + s.jwtExpirationSeconds else now + d
    | none => now + s.jwtExpirationSeconds
  { malformed := false, sig := s.jwtSecret, claims := data,
    exp := some expire, iat := none }

/-- `create_email_token` (src/services/auth.py lines 128-146): copies the
data, sets `iat` to now and `exp` to now + 7 days, and signs with the
configured secret.  The 7-day TTL is hard-coded, independent of settings. -/
def create_email_token (data : List (String × Option String))
    (now : Nat) (s : Settings) : Token :=
  { malformed := false, sig := s.jwtSecret, claims := data,
    exp := some (now + 7 * 24 * 60 * 60), iat := some now }

/-- A cache entry: the pickled user (pickle round-trips, so the value is kept
as the user record itself) together with its absolute expiry instant
(`SET ... EX ttl` at time `t` expires at `t + ttl`). -/
structure CacheEntry where
  user : UserRec
  expiresAt : Nat
deriving DecidableEq, Repr

/-- The external state `get_current_user` touches: the redis cache (whether
the backend is reachable, plus its live entries) and the persistence store's
user table. -/
structure ResolverState where
  cacheUp : Bool
  cache : List (String × CacheEntry)
  store : List UserRec
deriving DecidableEq, Repr

/-- `redis_client.get(key)`: raises a `ConnectionError` when the backend is
unreachable (the source wraps it in no try/except); otherwise returns the
stored value while it is unexpired, and `None` on a miss or after the TTL
lapsed (expiry is enforced by redis itself). -/
def redisGet (st : ResolverState) (key : String) (now : Nat) :
    Except PyErr (Option UserRec) :=
  if st.cacheUp then
    match alistLookup st.cache key with
    | some e => if now < e.expiresAt then Except.ok (some e.user) else Except.ok none
    | none => Except.ok none
  else
    Except.error (PyErr.redisError "connection refused")

/-- `redis_client.set(key, pickle.dumps(user), ex=ttl)`: raises on an
unreachable backend, otherwise (re)binds the key with expiry `now + ttl`. -/
def redisSet (st : ResolverState) (key : String) (u : UserRec) (now ttl : Nat) :
    Except PyErr ResolverState :=
  if st.cacheUp then
    Except.ok { st with
      cache := (key, ⟨u, now + ttl⟩) :: st.cache.filter (fun p => p.1 ≠ key) }
  else
    Except.error (PyErr.redisError "connection refused")

/-- `UserRepository.get_user_by_username` (src/repository/users.py lines
25-37): `SELECT ... FILTER BY username`, one result or `None`. -/
def get_user_by_username (store : List UserRec) (username : String) :
    Option UserRec :=
  store.find? (fun u => u.username = username)

/-- `UserRepository.get_user_by_email` (src/repository/users.py lines 39-51). -/
def get_user_by_email (store : List UserRec) (email : String) : Option UserRec :=
  store.find? (fun u => u.email = email)

/-- Result of `get_current_user`: the user, the state after the call, and the
number of persistence-store queries performed during the call. -/
structure ResolveOk where
  user : UserRec
  state : ResolverState
  storeQueries : Nat
deriving DecidableEq, Repr

/-- `get_current_user` (src/services/auth.py lines 82-125).  Decodes the JWT;
any `JWTError` is caught and turned into HTTP 401.  `payload["sub"]` on a
payload with no `sub` key raises `KeyError`, which the `except JWTError`
clause does not catch, so it propagates (the subsequent
`if username is None` guard is unreachable: jose already rejects a non-string
`sub` during decode).  Then redis is consulted under key
`"username:" ++ username`; on a miss the store is queried, a missing user is
HTTP 401, and a found user is cached with a 600-second TTL. -/
def get_current_user (token : Token) (st : ResolverState) (now : Nat)
    (s : Settings) : Except PyErr ResolveOk :=
  match jwtDecode token s.jwtSecret now with
  | none =>
      Except.error (PyErr.httpException 401 "Could not validate credentials")
  | some payload =>
      match alistLookup payload "sub" with
      | none => Except.error (PyErr.keyError "sub")
      | some none =>
          Except.error (PyErr.httpException 401 "Could not validate credentials")
      | some (some username) =>
          match redisGet st ("username:" ++ username) now with
          | Except.error e => Except.error e
          | Except.ok (some u) => Except.ok ⟨u, st, 0⟩
          | Except.ok none =>
              match get_user_by_username st.store username with
              | none =>
                  Except.error
                    (PyErr.httpException 401 "Could not validate credentials")
              | some u =>
                  match redisSet st ("username:" ++ username) u now 600 with
                  | Except.error e => Except.error e
                  | Except.ok st' => Except.ok ⟨u, st', 1⟩

/-- `get_current_moderator_user` (src/services/auth.py lines 176-187): the
resolved user passes when its role is in `[UserRole.MODERATOR, UserRole.ADMIN]`,
otherwise HTTP 403. -/
def get_current_moderator_user (current_user : UserRec) : Except PyErr UserRec :=
  if current_user.role = UserRole.moderator ∨ current_user.role = UserRole.admin then
    Except.ok current_user
  else
    Except.error (PyErr.httpException 403 "insufficient access rights")

/-- `get_current_admin_user` (src/services/auth.py lines 190-201): the
resolved user passes only when its role is `UserRole.ADMIN`, otherwise
HTTP 403. -/
def get_current_admin_user (current_user : UserRec) : Except PyErr UserRec :=
  if current_user.role = UserRole.admin then
    Except.ok current_user
  else
    Except.error (PyErr.httpException 403 "insufficient access rights")

/-- Python values appearing as keyword arguments to the `User(...)`
constructor. -/
inductive PyVal where
  | vstr (s : String)
  | vpwd (p : PwdStr)
  | vnone
  | vbool (b : Bool)
  | vrole (r : UserRole)
deriving DecidableEq, Repr

/-- `UserCreate` schema (src/schemas/contacts.py lines 33-37): `username`,
`email`, `password`, `role` --- all four fields are required (no defaults),
so a request body missing any of them is rejected by validation (422) before
reaching the handler. -/
structure UserCreate where
  username : String
  email : String
  password : PwdStr
  role : UserRole
deriving DecidableEq, Repr

/-- `body.model_dump(exclude_unset=True, exclude={"password"})` as evaluated
in `UserRepository.create_user`: every `UserCreate` field is required, hence
explicitly set on any validated body, so `exclude_unset=True` drops nothing;
`password` is excluded; `username`, `email` and `role` remain. -/
def user_create_dump (body : UserCreate) : List (String × PyVal) :=
  [("username", PyVal.vstr body.username),
   ("email", PyVal.vstr body.email),
   ("role", PyVal.vrole body.role)]

/-- CPython keyword-argument assembly for a call `f(**unpacked, k1=v1, ...)`:
each explicit keyword is added after the unpacked mapping, and a key that is
already present raises
`TypeError: got multiple values for keyword argument k`. -/
def pyCallKwargs (unpacked explicit : List (String × PyVal)) :
    Except PyErr (List (String × PyVal)) :=
  match explicit with
  | [] => Except.ok unpacked
  | (k, v) :: rest =>
      if (alistLookup unpacked k).isSome then
        Except.error
          (PyErr.typeError ("got multiple values for keyword argument " ++ k))
      else
        pyCallKwargs (unpacked ++ [(k, v)]) rest

/-- The `User(...)` declarative constructor plus column defaults
(src/db/models.py lines 43-55): absent `confirmed` defaults to `False`,
absent `role` defaults to `UserRole.USER`, absent `avatar` is NULL. -/
def userFromKwargs (kwargs : List (String × PyVal)) (uid : Nat) : UserRec :=
  { id := uid
    username := match alistLookup kwargs "username" with
      | some (PyVal.vstr s) => s
      | _ => ""
    email := match alistLookup kwargs "email" with
      | some (PyVal.vstr s) => s
      | _ => ""
    hashed_password := match alistLookup kwargs "hashed_password" with
      | some (PyVal.vpwd p) => p
      | _ => PwdStr.plain ""
    avatar := match alistLookup kwargs "avatar" with
      | some (PyVal.vstr s) => some s
      | _ => none
    confirmed := match alistLookup kwargs "confirmed" with
      | some (PyVal.vbool b) => b
      | _ => false
    role := match alistLookup kwargs "role" with
      | some (PyVal.vrole r) => r
      | _ => UserRole.user }

/-- `UserRepository.create_user` (src/repository/users.py lines 53-73):
`User(**body.model_dump(exclude_unset=True, exclude={"password"}),
hashed_password=body.password, avatar=avatar, role=body.role)`, then add,
commit, refresh.  On success returns the created user and the new table. -/
def create_user (store : List UserRec) (nextId : Nat) (body : UserCreate)
    (avatar : Option String) : Except PyErr (UserRec × List UserRec) :=
  let explicitKw : List (String × PyVal) :=
    [("hashed_password", PyVal.vpwd body.password),
     ("avatar", match avatar with
        | some a => PyVal.vstr a
        | none => PyVal.vnone),
     ("role", PyVal.vrole body.role)]
  match pyCallKwargs (user_create_dump body) explicitKw with
  | Except.error e => Except.error e
  | Except.ok kwargs =>
      let u := userFromKwargs kwargs nextId
      Except.ok (u, store ++ [u])

/-- `libgravatar.Gravatar(email).get_image()` as used by
`UserService.create_user` (src/services/users.py lines 18-35); on an
exception the service logs and falls back to `None`, which the claims never
exercise. -/
def gravatarUrl (email : String) : String :=
  "https://www.gravatar.com/avatar/" ++ email

/-- `UserService.create_user` (src/services/users.py lines 18-35): computes
the gravatar avatar for the e-mail and delegates to the repository. -/
def service_create_user (store : List UserRec) (nextId : Nat)
    (body : UserCreate) : Except PyErr (UserRec × List UserRec) :=
  create_user store nextId body (some (gravatarUrl body.email))

/-- `register_user` (src/api/auth.py lines 29-70): 409 when the email is
taken, else 409 when the username is taken, else the password field is
replaced by its bcrypt hash (`salt` stands for passlib's fresh random salt),
the user is created, and a confirmation e-mail task is scheduled (the
returned `Bool`). -/
def register_user (store : List UserRec) (nextId : Nat) (salt : Nat)
    (body : UserCreate) : Except PyErr (UserRec × List UserRec × Bool) :=
  if (get_user_by_email store body.email).isSome then
    Except.error (PyErr.httpException 409 "user with this email already exists")
  else if (get_user_by_username store body.username).isSome then
    Except.error (PyErr.httpException 409 "user with this username already exists")
  else
    let body' := { body with password := get_password_hash salt body.password }
    match service_create_user store nextId body' with
    | Except.error e => Except.error e
    | Except.ok (u, store') => Except.ok (u, store', true)

/-- `get_email_from_token` (src/services/auth.py lines 149-172): decode the
token, 422 on any `JWTError`; `payload["sub"]` raises `KeyError` when the
claim is absent (not caught by `except JWTError`). -/
def get_email_from_token (token : Token) (now : Nat) (s : Settings) :
    Except PyErr (Option String) :=
  match jwtDecode token s.jwtSecret now with
  | none =>
      Except.error (PyErr.httpException 422 "invalid token for email verification")
  | some payload =>
      match alistLookup payload "sub" with
      | none => Except.error (PyErr.keyError "sub")
      | some v => Except.ok v

/-- In-place `user.confirmed = True` on the first user whose email matches
(SQLAlchemy `scalar_one_or_none` under the unique-email constraint). -/
def set_confirmed_first : List UserRec → String → List UserRec
  | [], _ => []
  | u :: rest, e =>
      if u.email = e then { u with confirmed := true } :: rest
      else u :: set_confirmed_first rest e

/-- `UserRepository.confirmed_email` (src/repository/users.py lines 75-87):
looks the user up by email and sets `confirmed = True`; a missing user would
make `user.confirmed = True` raise `AttributeError` on `None`. -/
def repo_confirmed_email (store : List UserRec) (email : String) :
    Except PyErr (List UserRec) :=
  match get_user_by_email store email with
  | none => Except.error (PyErr.attributeError "NoneType has no attribute confirmed")
  | some _ => Except.ok (set_confirmed_first store email)

/-- In-place `user.avatar = url` on the first user whose email matches. -/
def set_avatar_first : List UserRec → String → String → List UserRec
  | [], _, _ => []
  | u :: rest, e, url =>
      if u.email = e then { u with avatar := some url } :: rest
      else u :: set_avatar_first rest e url

/-- `UserRepository.update_avatar_url` (src/repository/users.py lines
89-104): looks the user up by email and replaces the avatar URL. -/
def update_avatar_url (store : List UserRec) (email url : String) :
    Except PyErr (List UserRec) :=
  match get_user_by_email store email with
  | none => Except.error (PyErr.attributeError "NoneType has no attribute avatar")
  | some _ => Except.ok (set_avatar_first store email url)

/-- `confirmed_email` route (src/api/auth.py lines 109-129): decode the
token to an email; unknown email is HTTP 400; an already-confirmed user gets
the idempotent success message with no state change; otherwise the confirmed
flag is persisted.  A JSON-null `sub` yields `email = None`, whose store
lookup finds nothing (emails are non-null), hence 400. -/
def confirmed_email_route (token : Token) (store : List UserRec) (now : Nat)
    (s : Settings) : Except PyErr (String × List UserRec) :=
  match get_email_from_token token now s with
  | Except.error e => Except.error e
  | Except.ok none => Except.error (PyErr.httpException 400 "Verification error")
  | Except.ok (some email) =>
      match get_user_by_email store email with
      | none => Except.error (PyErr.httpException 400 "Verification error")
      | some u =>
          if u.confirmed then
            Except.ok ("your email is already confirmed", store)
          else
            match repo_confirmed_email store email with
            | Except.error e => Except.error e
            | Except.ok store' => Except.ok ("email confirmed", store')

/-! ## Test fixtures used by witnesses and counterexamples -/

/-- A confirmed ordinary user present in the persistence store. -/
def bobUser : UserRec :=
  ⟨1, "bob", "bob@x.com", PwdStr.bcrypt 3 "pw", none, true, UserRole.user⟩

/-- A user with the moderator role. -/
def modUser : UserRec :=
  ⟨2, "mira", "mira@x.com", PwdStr.bcrypt 4 "pw2", none, true, UserRole.moderator⟩

/-- A user with the admin role. -/
def admUser : UserRec :=
  ⟨3, "ada", "ada@x.com", PwdStr.bcrypt 5 "pw3", none, true, UserRole.admin⟩

/-- Demo configuration: secret `"secret"`, session TTL 3600 s. -/
def demoSettings : Settings := ⟨"secret", 3600⟩

/-- A well-signed, unexpired bearer token for `bob`. -/
def bobToken : Token := ⟨false, "secret", [("sub", some "bob")], some 1000, none⟩

/-- A well-signed, unexpired token whose payload has no `sub` claim. -/
def noSubToken : Token := ⟨false, "secret", [("aud", some "api")], some 1000, none⟩

/-- A fresh resolver state: reachable cache, empty cache, store = `[bobUser]`. -/
def freshState : ResolverState := ⟨true, [], [bobUser]⟩

/-- `bobUser` before e-mail confirmation. -/
def bobUnconfirmed : UserRec := { bobUser with confirmed := false }

/-- A well-signed, unexpired e-mail-confirmation token for `bob@x.com`. -/
def confTok : Token := ⟨false, "secret", [("sub", some "bob@x.com")], some 1000, none⟩

/-! ## Claim theorems -/

/-- C1: decode failures (malformed token, bad signature, passed expiry) all
fail with the same 401 `Unauthorized`; but a successfully decoded payload
with no `sub` claim does NOT give 401 --- `payload["sub"]` raises `KeyError`,
which `except JWTError` does not catch, so it propagates out of the resolver
(HTTP 500), contradicting the claim's "no `sub` claim → Unauthorized". -/
theorem get_current_user_missing_sub_raises_keyerror :
    get_current_user ⟨true, "secret", [("sub", some "bob")], some 1000, none⟩
        freshState 10 demoSettings
      = Except.error (PyErr.httpException 401 "Could not validate credentials") ∧
    get_current_user ⟨false, "wrong-secret", [("sub", some "bob")], some 1000, none⟩
        freshState 10 demoSettings
      = Except.error (PyErr.httpException 401 "Could not validate credentials") ∧
    get_current_user ⟨false, "secret", [("sub", some "bob")], some 1000, none⟩
        freshState 2000 demoSettings
      = Except.error (PyErr.httpException 401 "Could not validate credentials") ∧
    get_current_user noSubToken freshState 10 demoSettings
      = Except.error (PyErr.keyError "sub") := by
  refine ⟨rfl, rfl, rfl, rfl⟩

/-- C3: the moderator-or-admin gate accepts exactly the roles `moderator` and
`admin` and the admin gate exactly `admin`, each returning the user unchanged
and raising HTTP 403 otherwise; the allowed sets are flat enumerations, so a
moderator passes the first gate but is rejected by the second, while an admin
passes both. -/
theorem role_gates_flat_enumeration :
    (∀ u : UserRec,
      ((get_current_moderator_user u = Except.ok u) ↔
        (u.role = UserRole.moderator ∨ u.role = UserRole.admin)) ∧
      ((get_current_moderator_user u =
          Except.error (PyErr.httpException 403 "insufficient access rights")) ↔
        ¬(u.role = UserRole.moderator ∨ u.role = UserRole.admin)) ∧
      ((get_current_admin_user u = Except.ok u) ↔ u.role = UserRole.admin) ∧
      ((get_current_admin_user u =
          Except.error (PyErr.httpException 403 "insufficient access rights")) ↔
        ¬u.role = UserRole.admin)) ∧
    get_current_moderator_user modUser = Except.ok modUser ∧
    get_current_admin_user modUser =
      Except.error (PyErr.httpException 403 "insufficient access rights") ∧
    get_current_moderator_user admUser = Except.ok admUser ∧
    get_current_admin_user admUser = Except.ok admUser := by
  refine ⟨?_, rfl, rfl, rfl, rfl⟩
  intro u
  rcases u with ⟨uid, un, em, hp, av, cf, role⟩
  cases role <;>
    simp [get_current_moderator_user, get_current_admin_user]

/-- C6: an email-confirmation token expires exactly 7 days (604800 s) after
issuance whatever the configured TTL, while a session token issued without an
explicit TTL expires after `settings.JWT_EXPIRATION_SECONDS`. -/
theorem token_ttl_defaults :
    ∀ (s : Settings) (data : List (String × Option String)) (now : Nat),
      (create_email_token data now s).exp = some (now + 7 * 24 * 60 * 60) ∧
      (create_access_token data none now s).exp =
        some (now + s.jwtExpirationSeconds) := by
  intro s data now
  exact ⟨rfl, rfl⟩

/-- C7 (spec-modelled hasher): `verify(p, hash(p))` is true for every
password, and for every other plaintext (in particular any single-bit
alteration) `verify` returns false --- and, being a total function into
`Bool`, never throws on a mismatch. -/
theorem hash_verify_roundtrip (salt : Nat) (p q : String) (hne : q ≠ p) :
    verify_password (PwdStr.plain p) (get_password_hash salt (PwdStr.plain p))
      = true ∧
    verify_password (PwdStr.plain q) (get_password_hash salt (PwdStr.plain p))
      = false := by
  constructor
  · simp [verify_password, get_password_hash, pwdRepr]
  · simp [verify_password, get_password_hash, pwdRepr, hne]

/-- Witness for C7 at salt 12, password `"12345678"`, altered password
`"12345679"`. -/
theorem hash_verify_roundtrip_witness :
    verify_password (PwdStr.plain "12345678")
        (get_password_hash 12 (PwdStr.plain "12345678")) = true ∧
    verify_password (PwdStr.plain "12345679")
        (get_password_hash 12 (PwdStr.plain "12345678")) = false :=
  hash_verify_roundtrip 12 "12345678" "12345679" (by decide)

/-- C4: the duplicate checks behave as claimed (email checked first, both
yield 409, failing requests return without touching the store), but the
happy path does not persist a user: `User(**body.model_dump(...), ...,
role=body.role)` passes `role` both in the unpacked mapping and as an
explicit keyword, so every registration that clears both checks dies with
`TypeError: got multiple values for keyword argument role` --- the repo's own
`test_signup` (expecting 201 for exactly this input) contradicts the code. -/
theorem register_user_happy_path_raises_typeerror :
    register_user [] 1 12
        ⟨"agent007", "agent007@gmail.com", PwdStr.plain "12345678", UserRole.user⟩
      = Except.error
          (PyErr.typeError "got multiple values for keyword argument role") ∧
    register_user [bobUser] 2 12
        ⟨"bobby", "bob@x.com", PwdStr.plain "12345678", UserRole.user⟩
      = Except.error
          (PyErr.httpException 409 "user with this email already exists") ∧
    register_user [bobUser] 2 12
        ⟨"bob", "other@x.com", PwdStr.plain "12345678", UserRole.user⟩
      = Except.error
          (PyErr.httpException 409 "user with this username already exists") ∧
    register_user [bobUser] 2 12
        ⟨"bob", "bob@x.com", PwdStr.plain "12345678", UserRole.user⟩
      = Except.error
          (PyErr.httpException 409 "user with this email already exists") :=
  ⟨rfl, rfl, rfl, rfl⟩

/-- C10: the registration schema does require a `role` field
(`user_create_dump` of a body carrying role `admin` indeed contains it), but
no user is ever persisted with the client-supplied role: since `role` is
always in the dumped mapping, the `User(...)` call raises `TypeError` for an
admin self-registration exactly as for any other, so the claimed
"created user's role equals r" never happens. -/
theorem register_user_admin_role_raises_typeerror :
    alistLookup
        (user_create_dump
          ⟨"eve", "eve@example.com", PwdStr.plain "pw123456", UserRole.admin⟩)
        "role" = some (PyVal.vrole UserRole.admin) ∧
    register_user [] 1 7
        ⟨"eve", "eve@example.com", PwdStr.plain "pw123456", UserRole.admin⟩
      = Except.error
          (PyErr.typeError "got multiple values for keyword argument role") :=
  ⟨rfl, rfl⟩

/-- C8 counterexample: with the cache backend down, a valid token for a user
that IS in the persistence store does not fall through to the store --- the
redis `ConnectionError` propagates out of the resolver as a hard failure. -/
theorem cache_error_propagates_counterexample :
    get_current_user bobToken ⟨false, [], [bobUser]⟩ 10 demoSettings
      = Except.error (PyErr.redisError "connection refused") :=
  rfl

/-- C8 amended: for every resolution whose token decodes to a string subject,
an unreachable cache backend makes the resolver propagate the redis
connection error (an uncaught exception, HTTP 500) instead of treating it as
a miss; the persistence store is never consulted. -/
theorem cache_error_propagates (token : Token) (st : ResolverState) (now : Nat)
    (s : Settings) (payload : List (String × Option String)) (username : String)
    (hdown : st.cacheUp = false)
    (hdec : jwtDecode token s.jwtSecret now = some payload)
    (hsub : alistLookup payload "sub" = some (some username)) :
    get_current_user token st now s
      = Except.error (PyErr.redisError "connection refused") := by
  simp [get_current_user, hdec, hsub, redisGet, hdown]

/-- Witness for the amended C8 at the concrete down-cache state. -/
theorem cache_error_propagates_witness :
    get_current_user bobToken ⟨false, [("username:bob", ⟨bobUser, 700⟩)], [bobUser]⟩
        10 demoSettings
      = Except.error (PyErr.redisError "connection refused") :=
  cache_error_propagates bobToken ⟨false, [("username:bob", ⟨bobUser, 700⟩)], [bobUser]⟩
    10 demoSettings [("sub", some "bob")] "bob" rfl rfl rfl

/-- Looking a user up by email after `set_confirmed_first` on that email
yields the same user with `confirmed` forced to `true`. -/
theorem get_user_by_email_set_confirmed_first (store : List UserRec) (e : String) :
    get_user_by_email (set_confirmed_first store e) e
      = (get_user_by_email store e).map (fun u => { u with confirmed := true }) := by
  induction store with
  | nil => simp [get_user_by_email, set_confirmed_first]
  | cons u rest ih =>
      by_cases h : u.email = e
      · simp [get_user_by_email, set_confirmed_first, h]
      · simpa [get_user_by_email, set_confirmed_first, h] using ih

/-- C5: for a confirmation token that decodes to an email, an unknown email
is HTTP 400; an already-confirmed user receives the idempotent success
message and the store is unchanged; an unconfirmed user gets the confirmed
message and exactly their `confirmed` flag persisted; and a second
confirmation of any successful outcome succeeds with the idempotent message
and leaves the state equal to confirming once. -/
theorem confirmed_email_route_idempotent
    (tok : Token) (store : List UserRec) (now : Nat) (s : Settings) (email : String)
    (hdec : get_email_from_token tok now s = Except.ok (some email)) :
    (get_user_by_email store email = none →
      confirmed_email_route tok store now s
        = Except.error (PyErr.httpException 400 "Verification error")) ∧
    (∀ u, get_user_by_email store email = some u → u.confirmed = true →
      confirmed_email_route tok store now s
        = Except.ok ("your email is already confirmed", store)) ∧
    (∀ u, get_user_by_email store email = some u → u.confirmed = false →
      confirmed_email_route tok store now s
        = Except.ok ("email confirmed", set_confirmed_first store email)) ∧
    (∀ m store', confirmed_email_route tok store now s = Except.ok (m, store') →
      confirmed_email_route tok store' now s
        = Except.ok ("your email is already confirmed", store')) := by
  refine ⟨?_, ?_, ?_, ?_⟩
  · intro h
    simp [confirmed_email_route, hdec, h]
  · intro u h hc
    simp [confirmed_email_route, hdec, h, hc]
  · intro u h hc
    simp [confirmed_email_route, hdec, h, hc, repo_confirmed_email]
  · intro m store' hok
    rcases hfind : get_user_by_email store email with _ | u
    · simp [confirmed_email_route, hdec, hfind] at hok
    · by_cases hc : u.confirmed
      · have h1 : store' = store := by
          simp [confirmed_email_route, hdec, hfind, hc] at hok
          exact hok.2.symm
        subst h1
        simp [confirmed_email_route, hdec, hfind, hc]
      · have h1 : store' = set_confirmed_first store email := by
          simp [confirmed_email_route, hdec, hfind, hc, repo_confirmed_email] at hok
          exact hok.2.symm
        subst h1
        have h2 := get_user_by_email_set_confirmed_first store email
        rw [hfind] at h2
        simp [confirmed_email_route, hdec, h2, hc]

/-- Witness for C5: confirming the unconfirmed `bob` flips his flag; an
immediate second confirmation returns the idempotent message and the same
state. -/
theorem confirmed_email_route_idempotent_witness :
    confirmed_email_route confTok [bobUnconfirmed] 10 demoSettings
      = Except.ok ("email confirmed",
          set_confirmed_first [bobUnconfirmed] "bob@x.com") ∧
    confirmed_email_route confTok (set_confirmed_first [bobUnconfirmed] "bob@x.com")
        10 demoSettings
      = Except.ok ("your email is already confirmed",
          set_confirmed_first [bobUnconfirmed] "bob@x.com") := by
  have h := confirmed_email_route_idempotent confTok [bobUnconfirmed] 10
    demoSettings "bob@x.com" rfl
  exact ⟨h.2.2.1 bobUnconfirmed rfl rfl,
         h.2.2.2 _ _ (h.2.2.1 bobUnconfirmed rfl rfl)⟩

/-- A cache hit returns the cached user unchanged with no store query. -/
theorem get_current_user_cache_hit
    (st : ResolverState) (tok : Token) (now : Nat) (s : Settings)
    (payload : List (String × Option String)) (username : String) (u : UserRec)
    (hdec : jwtDecode tok s.jwtSecret now = some payload)
    (hsub : alistLookup payload "sub" = some (some username))
    (hhit : redisGet st ("username:" ++ username) now = Except.ok (some u)) :
    get_current_user tok st now s = Except.ok ⟨u, st, 0⟩ := by
  simp [get_current_user, hdec, hsub, hhit]

/-- C2: for a successfully decoded token with subject `username` and a
reachable cache, the resolver is a read-through cache: a cache hit returns
the cached (deserialized) user with zero store queries; a cache miss queries
the store once, yields 401 when the store has no such user, and otherwise
populates the cache with a 600-second TTL and returns the user; a second
resolution strictly within those 600 seconds is a hit --- zero store
queries. -/
theorem get_current_user_read_through_cache
    (st : ResolverState) (tok : Token) (now : Nat) (s : Settings)
    (payload : List (String × Option String)) (username : String)
    (hup : st.cacheUp = true)
    (hdec : jwtDecode tok s.jwtSecret now = some payload)
    (hsub : alistLookup payload "sub" = some (some username)) :
    (∀ u, redisGet st ("username:" ++ username) now = Except.ok (some u) →
      get_current_user tok st now s = Except.ok ⟨u, st, 0⟩) ∧
    (redisGet st ("username:" ++ username) now = Except.ok none →
      get_user_by_username st.store username = none →
      get_current_user tok st now s
        = Except.error (PyErr.httpException 401 "Could not validate credentials")) ∧
    (∀ u now', redisGet st ("username:" ++ username) now = Except.ok none →
      get_user_by_username st.store username = some u →
      get_current_user tok st now s
        = Except.ok ⟨u,
            { st with cache := ("username:" ++ username, ⟨u, now + 600⟩) ::
                st.cache.filter (fun p => p.1 ≠ "username:" ++ username) }, 1⟩ ∧
      (jwtDecode tok s.jwtSecret now' = some payload → now' < now + 600 →
        get_current_user tok
            { st with cache := ("username:" ++ username, ⟨u, now + 600⟩) ::
                st.cache.filter (fun p => p.1 ≠ "username:" ++ username) }
            now' s
          = Except.ok ⟨u,
              { st with cache := ("username:" ++ username, ⟨u, now + 600⟩) ::
                  st.cache.filter (fun p => p.1 ≠ "username:" ++ username) }, 0⟩)) := by
  refine ⟨?_, ?_, ?_⟩
  · intro u h
    exact get_current_user_cache_hit st tok now s payload username u hdec hsub h
  · intro h hstore
    simp [get_current_user, hdec, hsub, h, hstore]
  · intro u now' hmiss hstore
    constructor
    · simp [get_current_user, hdec, hsub, hmiss, hstore, redisSet, hup]
    · intro hdec' hlt
      refine get_current_user_cache_hit _ tok now' s payload username u hdec' hsub ?_
      simp [redisGet, hup, alistLookup, hlt]

/-- Witness for C2: on a fresh cache the first resolution of `bob` performs
one store query and populates the cache; a second resolution 390 seconds
later performs none and returns the cached copy. -/
theorem get_current_user_read_through_cache_witness :
    get_current_user bobToken freshState 10 demoSettings
      = Except.ok ⟨bobUser,
          { freshState with cache := [("username:" ++ "bob", ⟨bobUser, 10 + 600⟩)] }, 1⟩ ∧
    get_current_user bobToken
        { freshState with cache := [("username:" ++ "bob", ⟨bobUser, 10 + 600⟩)] }
        400 demoSettings
      = Except.ok ⟨bobUser,
          { freshState with cache := [("username:" ++ "bob", ⟨bobUser, 10 + 600⟩)] }, 0⟩ := by
  have h := get_current_user_read_through_cache freshState bobToken 10 demoSettings
    [("sub", some "bob")] "bob" rfl rfl rfl
  have h3 := h.2.2 bobUser 400 rfl rfl
  exact ⟨h3.1, h3.2 rfl (by norm_num)⟩

/-- `set_confirmed_first` only ever raises the `confirmed` flag and touches
no other field. -/
theorem set_confirmed_first_forall2 (store : List UserRec) (e : String) :
    List.Forall₂ (fun u u' => u'.role = u.role ∧ u'.username = u.username ∧
      u'.email = u.email ∧ (u.confirmed = true → u'.confirmed = true))
      store (set_confirmed_first store e) := by
  induction store with
  | nil => exact List.Forall₂.nil
  | cons u rest ih =>
      simp only [set_confirmed_first]
      by_cases h : u.email = e
      · rw [if_pos h]
        refine List.Forall₂.cons ⟨rfl, rfl, rfl, fun _ => rfl⟩ ?_
        exact List.forall₂_same.mpr (fun x _ => ⟨rfl, rfl, rfl, fun hx => hx⟩)
      · rw [if_neg h]
        exact List.Forall₂.cons ⟨rfl, rfl, rfl, fun hx => hx⟩ ih

/-- `set_avatar_first` preserves the `confirmed` flag and the role. -/
theorem set_avatar_first_forall2 (store : List UserRec) (e url : String) :
    List.Forall₂ (fun u u' => u'.role = u.role ∧ u'.confirmed = u.confirmed)
      store (set_avatar_first store e url) := by
  induction store with
  | nil => exact List.Forall₂.nil
  | cons u rest ih =>
      simp only [set_avatar_first]
      by_cases h : u.email = e
      · rw [if_pos h]
        refine List.Forall₂.cons ⟨rfl, rfl⟩ ?_
        exact List.forall₂_same.mpr (fun x _ => ⟨rfl, rfl⟩)
      · rw [if_neg h]
        exact List.Forall₂.cons ⟨rfl, rfl⟩ ih

/-- C9: a user record constructed without a `confirmed` keyword gets the
column default `confirmed = false`, and the creation path passes no such
keyword; the email-confirmation flow only ever raises `confirmed` (never
back to `false`) and leaves `role` (and identity fields) unchanged; the
avatar-update flow --- the only other documented store mutation --- changes
neither `confirmed` nor `role`. -/
theorem user_lifecycle_invariants :
    (∀ (kwargs : List (String × PyVal)) (uid : Nat),
      alistLookup kwargs "confirmed" = none →
      (userFromKwargs kwargs uid).confirmed = false) ∧
    (∀ body : UserCreate, alistLookup (user_create_dump body) "confirmed" = none) ∧
    (∀ (store : List UserRec) (e : String) (store' : List UserRec),
      repo_confirmed_email store e = Except.ok store' →
      List.Forall₂ (fun u u' => u'.role = u.role ∧ u'.username = u.username ∧
        u'.email = u.email ∧ (u.confirmed = true → u'.confirmed = true))
        store store') ∧
    (∀ (store : List UserRec) (e url : String) (store' : List UserRec),
      update_avatar_url store e url = Except.ok store' →
      List.Forall₂ (fun u u' => u'.role = u.role ∧ u'.confirmed = u.confirmed)
        store store') := by
  refine ⟨?_, ?_, ?_, ?_⟩
  · intro kwargs uid h
    simp [userFromKwargs, h]
  · intro body
    rfl
  · intro store e store' h
    rcases hf : get_user_by_email store e with _ | u
    · simp [repo_confirmed_email, hf] at h
    · simp [repo_confirmed_email, hf] at h
      rw [← h]
      exact set_confirmed_first_forall2 store e
  · intro store e url store' h
    rcases hf : get_user_by_email store e with _ | u
    · simp [update_avatar_url, hf] at h
    · simp [update_avatar_url, hf] at h
      rw [← h]
      exact set_avatar_first_forall2 store e url

/-- Witness for C9 at concrete kwargs and a one-user store. -/
theorem user_lifecycle_invariants_witness :
    (userFromKwargs [("username", PyVal.vstr "bob")] 1).confirmed = false ∧
    List.Forall₂ (fun u u' => u'.role = u.role ∧ u'.username = u.username ∧
      u'.email = u.email ∧ (u.confirmed = true → u'.confirmed = true))
      [bobUnconfirmed] (set_confirmed_first [bobUnconfirmed] "bob@x.com") ∧
    List.Forall₂ (fun u u' => u'.role = u.role ∧ u'.confirmed = u.confirmed)
      [bobUser] (set_avatar_first [bobUser] "bob@x.com" "http://img") :=
  ⟨user_lifecycle_invariants.1 [("username", PyVal.vstr "bob")] 1 rfl,
   user_lifecycle_invariants.2.2.1 [bobUnconfirmed] "bob@x.com" _ rfl,
   user_lifecycle_invariants.2.2.2 [bobUser] "bob@x.com" "http://img" _ rfl⟩
